import Mathlib

/-!
Verification of the om_scope_gen document ingestion & RAG pipeline.

The Python sources are embedded shallowly:
* strings are `List Char`; Python `str.strip()`, `str.replace("\r\n","\n")`,
  slicing (including negative stop indices) and `range(0, n, step)` are
  modelled explicitly;
* calls into external libraries (fitz, PyPDF2, python-docx, openpyxl, the
  OpenAI embedding client, Gemini, Postgres/pgvector) are oracles passed in
  as explicit arguments: an `Except`/`Option` value stands for "the call
  returned this" or "the call raised";
* the relational rows touched by a function are explicit structures, and the
  pgvector `embeddings` table is a list of rows in insertion order.
-/

/-- Python whitespace predicate backing `str.strip()` (ASCII part). -/
def isPySpace (c : Char) : Bool :=
  c = ' ' || c = '\t' || c = '\n' || c = '\r' || c = Char.ofNat 11 || c = Char.ofNat 12

/-- Python `s.strip()`: drop whitespace from both ends. -/
def pyStrip (s : List Char) : List Char :=
  ((s.dropWhile isPySpace).reverse.dropWhile isPySpace).reverse

/-- Python `text.replace("\r\n", "\n")` (left-to-right, non-overlapping). -/
def replaceCRLF : List Char → List Char
  | [] => []
  | [c] => [c]
  | c :: d :: rest =>
    if c = '\r' && d = '\n' then '\n' :: replaceCRLF rest
    else c :: replaceCRLF (d :: rest)

/-- Python slice `s[start : stop]` for a nonnegative `start` (the embedded
code only produces nonnegative starts) and an arbitrary integer `stop`:
a negative `stop` counts from the end of the string. -/
def pySlice (s : List Char) (start : Nat) (stop : Int) : List Char :=
  (s.take (if stop < 0 then ((s.length : Int) + stop).toNat else stop.toNat)).drop start

/-- Python `range(0, n, step)` for `step ≥ 1`: `[0, step, 2*step, …]` below `n`. -/
def pyRange (n step : Nat) : List Nat :=
  (List.range ((n + step - 1) / step)).map (· * step)

/-- `extraction.chunk_text`: `cleaned = text.replace("\r\n", "\n").strip()`. -/
def pyClean (text : List Char) : List Char :=
  pyStrip (replaceCRLF text)

/-- The stride of `extraction.chunk_text`: `step = max(1, chunk_size - overlap)`. -/
def chunkStep (chunk_size overlap : Int) : Nat :=
  (max 1 (chunk_size - overlap)).toNat

/-- The window start offsets of `extraction.chunk_text`:
`range(0, len(cleaned), step)`. -/
def chunkStarts (text : List Char) (chunk_size overlap : Int) : List Nat :=
  pyRange (pyClean text).length (chunkStep chunk_size overlap)

/-- `extraction.chunk_text(text, chunk_size, overlap)`: each window
`cleaned[start : start + chunk_size]` is stripped and dropped if empty.
The defaults at the call sites are `chunk_size = 1000`, `overlap = 100`. -/
def chunk_text (text : List Char) (chunk_size overlap : Int) : List (List Char) :=
  if text = [] then []
  else if pyClean text = [] then []
  else
    (chunkStarts text chunk_size overlap).filterMap (fun start =>
      let chunk := pyStrip (pySlice (pyClean text) start ((start : Int) + chunk_size))
      if chunk = [] then none else some chunk)

/-- Stripping never lengthens a string. -/
theorem pyStrip_length_le (s : List Char) : (pyStrip s).length ≤ s.length := by
  unfold pyStrip
  calc ((s.dropWhile isPySpace).reverse.dropWhile isPySpace).reverse.length
      = ((s.dropWhile isPySpace).reverse.dropWhile isPySpace).length := by
        simp
    _ ≤ (s.dropWhile isPySpace).reverse.length :=
        (List.dropWhile_sublist _).length_le
    _ = (s.dropWhile isPySpace).length := by simp
    _ ≤ s.length := (List.dropWhile_sublist _).length_le

/-- A slice `s[start : start + size]` with `0 ≤ size` has at most `size`
characters. -/
theorem pySlice_length_le (s : List Char) (start : Nat) (size : Int)
    (hsize : 0 ≤ size) : ((pySlice s start ((start : Int) + size)).length : Int) ≤ size := by
  unfold pySlice
  have hstop : ¬ ((start : Int) + size < 0) := by omega
  rw [if_neg hstop]
  simp only [List.length_drop, List.length_take]
  have htor : ((start : Int) + size).toNat = start + size.toNat := by omega
  omega

/-- Offsets in `chunkStarts` are successive multiples of the stride. -/
theorem chunkStarts_getD (text : List Char) (size overlap : Int) (i : Nat)
    (h : i < (chunkStarts text size overlap).length) :
    (chunkStarts text size overlap).getD i 0 = i * chunkStep size overlap := by
  unfold chunkStarts pyRange at *
  rw [List.getD_eq_getElem _ _ h]
  rw [List.length_map] at h
  simp only [List.getElem_map]
  rw [List.getElem_range]

theorem replaceCRLF_cons_of_ne (c : Char) (l : List Char) (h : c ≠ '\r') :
    replaceCRLF (c :: l) = c :: replaceCRLF l := by
  cases l with
  | nil => rfl
  | cons d rest => simp [replaceCRLF, h]

theorem replaceCRLF_replicate_a (n : Nat) :
    replaceCRLF (List.replicate n 'a') = List.replicate n 'a' := by
  induction n with
  | zero => rfl
  | succ k ih =>
    rw [List.replicate_succ, replaceCRLF_cons_of_ne _ _ (by decide), ih]

theorem pyStrip_replicate_a (n : Nat) :
    pyStrip (List.replicate n 'a') = List.replicate n 'a' := by
  have hdrop : ∀ m : Nat, (List.replicate m 'a').dropWhile isPySpace = List.replicate m 'a' := by
    intro m
    cases m with
    | zero => rfl
    | succ k => rw [List.replicate_succ, List.dropWhile_cons]; simp [isPySpace]
  unfold pyStrip
  rw [hdrop, List.reverse_replicate, hdrop, List.reverse_replicate]

theorem pyClean_replicate_a (n : Nat) :
    pyClean (List.replicate n 'a') = List.replicate n 'a' := by
  unfold pyClean
  rw [replaceCRLF_replicate_a, pyStrip_replicate_a]

theorem chunkStarts_scenario :
    chunkStarts (List.replicate 2500 'a') 1000 100 = [0, 900, 1800] := by
  unfold chunkStarts
  rw [pyClean_replicate_a, List.length_replicate]
  decide

/-- C5. `chunk_text` windows advance by a fixed stride of exactly
`chunk_size - overlap` characters whenever `overlap < chunk_size`; the
function is deterministic (re-chunking identical input yields the identical
sequence); and on a 2500-character input with `chunk_size = 1000`,
`overlap = 100` it produces exactly 3 chunks, the (stripped) windows taken
at offsets 0, 900 and 1800. -/
theorem chunk_text_stride_and_scenario :
    (∀ (text : List Char) (size overlap : Int), overlap < size →
      ∀ i, i + 1 < (chunkStarts text size overlap).length →
        ((chunkStarts text size overlap).getD (i + 1) 0 : Int) -
          ((chunkStarts text size overlap).getD i 0 : Int) = size - overlap) ∧
    (∀ (text : List Char) (size overlap : Int),
      chunk_text text size overlap = chunk_text text size overlap) ∧
    ((chunk_text (List.replicate 2500 'a') 1000 100).length = 3 ∧
      chunkStarts (List.replicate 2500 'a') 1000 100 = [0, 900, 1800] ∧
      chunk_text (List.replicate 2500 'a') 1000 100 =
        [pyStrip (pySlice (List.replicate 2500 'a') 0 1000),
         pyStrip (pySlice (List.replicate 2500 'a') 900 1900),
         pyStrip (pySlice (List.replicate 2500 'a') 1800 2800)]) := by
  have hscen : chunk_text (List.replicate 2500 'a') 1000 100 =
      [pyStrip (pySlice (List.replicate 2500 'a') 0 1000),
       pyStrip (pySlice (List.replicate 2500 'a') 900 1900),
       pyStrip (pySlice (List.replicate 2500 'a') 1800 2800)] := by
    have hslice : ∀ (s : Nat) (t : Int), 0 ≤ t →
        pySlice (List.replicate 2500 'a') s t =
          List.replicate (min t.toNat 2500 - s) 'a' := by
      intro s t ht
      unfold pySlice
      rw [if_neg (by omega), List.take_replicate, List.drop_replicate]
    unfold chunk_text
    rw [if_neg (by simp), pyClean_replicate_a, if_neg (by simp), chunkStarts_scenario]
    simp only [List.filterMap_cons, List.filterMap_nil]
    norm_num
    rw [hslice 0 1000 (by norm_num), hslice 900 1900 (by norm_num),
      hslice 1800 2800 (by norm_num)]
    have h19 : Int.toNat 1900 - 900 = 1000 := by decide
    norm_num [h19]
    rw [pyStrip_replicate_a, pyStrip_replicate_a, pyStrip_replicate_a]
    norm_num
  refine ⟨?_, fun _ _ _ => rfl, ?_, chunkStarts_scenario, hscen⟩
  · intro text size overlap hlt i hi
    have hi0 : i < (chunkStarts text size overlap).length := Nat.lt_of_succ_lt hi
    rw [chunkStarts_getD text size overlap (i + 1) hi, chunkStarts_getD text size overlap i hi0]
    have hstep : (chunkStep size overlap : Int) = size - overlap := by
      unfold chunkStep
      rw [max_eq_right (by omega : (1 : Int) ≤ size - overlap), Int.toNat_of_nonneg (by omega)]
    push_cast
    rw [← hstep]
    ring
  · rw [hscen]; rfl

/-- Witness for C5: at the concrete 2500-character input the offsets of the
second and first windows differ by exactly 1000 - 100. -/
theorem chunk_text_stride_and_scenario_witness :
    ((100 : Int) < 1000) ∧
    ((chunkStarts (List.replicate 2500 'a') 1000 100).getD 1 0 : Int) -
      ((chunkStarts (List.replicate 2500 'a') 1000 100).getD 0 0 : Int) = 1000 - 100 :=
  ⟨by norm_num,
   chunk_text_stride_and_scenario.1 (List.replicate 2500 'a') 1000 100 (by norm_num) 0
     (by rw [chunkStarts_scenario]; norm_num)⟩

/-- C10 counterexample: at `chunk_size = -2`, `overlap = 0` on a
12-character input, Python's negative-stop slicing `cleaned[start : start - 2]`
produces a 10-character chunk, so "every chunk is at most chunk_size
characters long" fails for a negative `chunk_size`. -/
theorem chunk_text_negative_size_counterexample :
    ¬ (∀ c ∈ chunk_text (List.replicate 12 'a') (-2) 0, (c.length : Int) ≤ -2) := by
  decide

/-- C10 (amended). For every text and all integer `chunk_size` and `overlap`
(including `overlap ≥ chunk_size`) the stride is clamped to at least 1, so
the window offsets advance and `chunk_text` is a total function; every chunk
returned is non-empty; and whenever `chunk_size ≥ 0`, every chunk is at most
`chunk_size` characters long. (For negative `chunk_size` the Python slice
`cleaned[start : start + chunk_size]` indexes from the end of the string and
the bound fails, see the counterexample.) -/
theorem chunk_text_total_nonempty_bounded :
    ∀ (text : List Char) (size overlap : Int),
      1 ≤ chunkStep size overlap ∧
      (∀ c ∈ chunk_text text size overlap, c ≠ []) ∧
      (0 ≤ size → ∀ c ∈ chunk_text text size overlap, (c.length : Int) ≤ size) := by
  intro text size overlap
  have hmem : ∀ c ∈ chunk_text text size overlap,
      ∃ start, c = pyStrip (pySlice (pyClean text) start ((start : Int) + size)) ∧ c ≠ [] := by
    intro c hc
    unfold chunk_text at hc
    by_cases h1 : text = []
    · rw [if_pos h1] at hc; cases hc
    rw [if_neg h1] at hc
    by_cases h2 : pyClean text = []
    · rw [if_pos h2] at hc; cases hc
    rw [if_neg h2, List.mem_filterMap] at hc
    obtain ⟨start, hstart, heq⟩ := hc
    by_cases h3 : pyStrip (pySlice (pyClean text) start ((start : Int) + size)) = []
    · simp [h3] at heq
    · simp only [h3, if_false] at heq
      refine ⟨start, ?_, ?_⟩
      · simp at heq
        exact heq.symm
      · simp at heq
        rw [heq] at h3
        exact h3
  refine ⟨?_, ?_, ?_⟩
  · unfold chunkStep
    have := le_max_left (1 : Int) (size - overlap)
    omega
  · intro c hc
    obtain ⟨start, hform, hne⟩ := hmem c hc
    exact hne
  · intro hsize c hc
    obtain ⟨start, hform, hne⟩ := hmem c hc
    calc (c.length : Int)
        ≤ ((pySlice (pyClean text) start ((start : Int) + size)).length : Int) := by
          rw [hform]
          exact_mod_cast pyStrip_length_le _
      _ ≤ size := pySlice_length_le _ _ _ hsize

/-- Witness for C10: the chunk `"hel"` of `chunk_text "hello" 3 10`
(`overlap > chunk_size`, stride clamped to 1) is non-empty and at most 3
characters long. -/
theorem chunk_text_total_nonempty_bounded_witness :
    (1 ≤ chunkStep 3 10) ∧
    (['h', 'e', 'l'] : List Char) ≠ [] ∧
    (((['h', 'e', 'l'] : List Char).length : Int) ≤ 3) :=
  ⟨(chunk_text_total_nonempty_bounded ['h', 'e', 'l', 'l', 'o'] 3 10).1,
   (chunk_text_total_nonempty_bounded ['h', 'e', 'l', 'l', 'o'] 3 10).2.1
     ['h', 'e', 'l'] (by decide),
   (chunk_text_total_nonempty_bounded ['h', 'e', 'l', 'l', 'o'] 3 10).2.2
     (by norm_num) ['h', 'e', 'l'] (by decide)⟩

/-- The `ProjectFile`/document flags read and written by
`routes/files.py::toggle_document_mode`. -/
structure FileRecord where
  is_too_large : Bool
  is_summarized : Bool
  use_summary_for_generation : Bool
  token_count : Nat
  summary_token_count : Nat
  native_token_count : Nat
deriving DecidableEq

/-- `routes/files.py::toggle_document_mode`: the two 400 guards, the flag
flip, and the token-count update. The result pairs the (possibly updated)
record with the HTTP error, if any; on an error the record is returned
unchanged, mirroring that the route raises before mutating it. -/
def toggle_document_mode (r : FileRecord) : FileRecord × Option (Nat × String) :=
  if r.is_too_large && !r.is_summarized then
    (r, some (400, "Cannot use native file for oversized file without summary"))
  else if !r.use_summary_for_generation && !r.is_summarized then
    (r, some (400, "Cannot use summary mode: file has not been summarized yet"))
  else
    let toggled := !r.use_summary_for_generation
    ({ r with
        use_summary_for_generation := toggled,
        token_count := if toggled then r.summary_token_count else r.native_token_count },
      none)

/-- C9. The mode-toggle invariant: a successful toggle never produces a
record with `use_summary_for_generation = true` but `is_summarized = false`,
and a toggle request for an oversized record without a summary is rejected
with a 400 error, leaving the record unchanged. -/
theorem toggle_document_mode_invariant :
    ∀ r : FileRecord,
      ((toggle_document_mode r).2 = none →
        (toggle_document_mode r).1.use_summary_for_generation = true →
          (toggle_document_mode r).1.is_summarized = true) ∧
      (r.is_too_large = true → r.is_summarized = false →
        (toggle_document_mode r).2 =
            some (400, "Cannot use native file for oversized file without summary") ∧
          (toggle_document_mode r).1 = r) := by
  intro r
  rcases r with ⟨tl, sm, us, tc, stc, ntc⟩
  rcases tl <;> rcases sm <;> rcases us <;>
    simp [toggle_document_mode]

/-- Witness for C9: the oversized, unsummarized record is rejected and
left unchanged. -/
theorem toggle_document_mode_invariant_witness :
    (toggle_document_mode ⟨true, false, true, 5, 2, 9⟩).2 =
        some (400, "Cannot use native file for oversized file without summary") ∧
      (toggle_document_mode ⟨true, false, true, 5, 2, 9⟩).1 = ⟨true, false, true, 5, 2, 9⟩ :=
  (toggle_document_mode_invariant ⟨true, false, true, 5, 2, 9⟩).2 rfl rfl

/-- `Path(name).suffix.lower()`: the (lower-cased) extension of the final
path component, empty when there is no dot, the dot is leading (hidden
file) or the dot is the final character. -/
def pySuffix (name : List Char) : String :=
  let base := (name.reverse.takeWhile (fun c => c ≠ '/')).reverse
  let revBase := base.reverse
  let afterDot := revBase.takeWhile (fun c => c ≠ '.')
  if afterDot.length = revBase.length ∨ afterDot.length = 0 ∨
      afterDot.length + 1 = base.length then ""
  else String.mk (('.' :: afterDot.reverse).map Char.toLower)

/-- One row of the pgvector `embeddings` table, restricted to the columns
set by `VectorStore.insert_embedding` at the ingestion call sites (the
remaining columns keep their defaults and are not read by any claim). -/
structure EmbRow where
  deal_id : Nat
  document_id : Nat
  content : List Char
  embedding : List ℚ
  company_name : List Char
  file_name : List Char
  file_type : List Char
  chunk_index : Nat
  chunk_size : Nat
deriving DecidableEq

/-- The `documents` row fields read/written by
`DocumentIngestionService._ingest_document`. -/
structure Doc where
  file_name : List Char
  file_path : Option (List Char)
  file_type : Option (List Char)
  processing_status : String
  processing_error : Option String
  extracted_text : Option (List Char)
  text_extracted : Bool
  embeddings_created : Bool
  text_chunks_count : Nat
deriving DecidableEq

/-- The external effects reaching `_ingest_document`, as oracles:
`fileExists` is `source_path.exists()`; `extractResult` is the outcome of
`extract_text(source_path)` (`error` = the extractor raised, which
propagates to `_process_job`); `pdfFallback` is `_pdf_text_fallback`
(total: it catches all its own errors and returns a possibly empty text);
`embed idx` is the outcome of `self._embed_text` on chunk `idx`
(`error` = the embedding call raised). -/
structure IngestEnv where
  fileExists : Bool
  extractResult : Except String (List Char)
  pdfFallback : List Char
  embed : Nat → Except String (List ℚ)

def imgExts : List String := [".jpeg", ".jpg", ".png", ".gif", ".webp"]

/-- Python `a or "text"` on the optional `document.file_type` (`None` and
the empty string are both falsy). -/
def pyOrText (a : Option (List Char)) : List Char :=
  match a with
  | none => ("text").toList
  | some t => if t = [] then ("text").toList else t

/-- `f"[Image: {file_name}]"`. -/
def imagePlaceholder (file_name : List Char) : List Char :=
  ("[Image: ").toList ++ file_name ++ ("]").toList

/-- The text `_ingest_document` works with after the PDF and image
fallbacks: `extracted` after the `suffix == ".pdf"` supplement and the
image placeholder substitution. -/
def effectiveExtracted (env : IngestEnv) (doc : Doc) (extracted0 : List Char) : List Char :=
  let suffix := pySuffix doc.file_name
  let extracted1 :=
    if suffix = ".pdf" ∧ (extracted0 = [] ∨ (pyStrip extracted0).length < 50) then
      if env.pdfFallback ≠ [] then env.pdfFallback else extracted0
    else extracted0
  if imgExts.contains suffix ∧ extracted1 = [] then imagePlaceholder doc.file_name
  else extracted1

/-- The row built by the `VectorStore.insert_embedding` call inside the
chunk loop of `_ingest_document`. -/
def rowOf (deal_id document_id : Nat) (company_name : List Char) (doc : Doc)
    (p : Nat × List Char) (v : List ℚ) : EmbRow :=
  ⟨deal_id, document_id, p.2, v, company_name, doc.file_name,
    pyOrText doc.file_type, p.1, p.2.length⟩

/-- `DocumentIngestionService._ingest_document`. The result carries the
updated document row, the table after the inserts, and the number of
embedding-provider calls made. A `.error` is an exception propagating to
`_process_job` (which then marks job and document failed). Per-chunk
embedding failures are caught inside the loop and the chunk is skipped;
`insert_embedding` itself is modelled as succeeding (a vector-store error
would abort the job, which no claim exercises). -/
def ingest_document (env : IngestEnv) (deal_id : Nat) (company_name : List Char)
    (document_id : Nat) (doc : Doc) (store : List EmbRow) :
    Except String (Doc × List EmbRow × Nat) :=
  if doc.file_path = none then .error "Document is missing file path for ingestion"
  else if env.fileExists = false then .error "Document source missing on disk"
  else
    match env.extractResult with
    | .error e => .error e
    | .ok extracted0 =>
      let extracted := effectiveExtracted env doc extracted0
      if extracted = [] then
        .ok ({ doc with
                processing_status := "uploaded",
                processing_error := some "No text extracted" }, store, 0)
      else
        let chunks := chunk_text extracted 1000 100
        let looped := chunks.enum.foldl (fun acc p =>
          match env.embed p.1 with
          | .error _ => (acc.1, acc.2 + 1)
          | .ok v => (acc.1 ++ [rowOf deal_id document_id company_name doc p v], acc.2 + 1))
          (store, 0)
        .ok ({ doc with
                extracted_text := some extracted,
                text_extracted := true,
                text_chunks_count := chunks.length,
                embeddings_created := decide (chunks ≠ []),
                processing_status := if chunks ≠ [] then "completed" else "processed",
                processing_error := none }, looped.1, looped.2)

/-- Unrolling the chunk loop: the inserted rows are exactly the rows of the
chunks whose embedding call succeeded, in chunk order, and one provider
call is made per chunk. -/
theorem ingest_loop_spec (embed : Nat → Except String (List ℚ))
    (mk : Nat × List Char → List ℚ → EmbRow) :
    ∀ (l : List (Nat × List Char)) (rows : List EmbRow) (n : Nat),
      l.foldl (fun acc p =>
        match embed p.1 with
        | .error _ => (acc.1, acc.2 + 1)
        | .ok v => (acc.1 ++ [mk p v], acc.2 + 1)) (rows, n) =
      (rows ++ l.filterMap (fun p =>
        match embed p.1 with
        | .error _ => none
        | .ok v => some (mk p v)), n + l.length) := by
  intro l
  induction l with
  | nil => intro rows n; simp
  | cons p rest ih =>
    intro rows n
    simp only [List.foldl_cons, List.filterMap_cons, List.length_cons]
    cases hemb : embed p.1 with
    | error e =>
      rw [ih rows (n + 1)]
      simp only [Prod.mk.injEq]
      exact ⟨by trivial, by omega⟩
    | ok v =>
      rw [ih (rows ++ [mk p v]) (n + 1)]
      simp only [Prod.mk.injEq]
      refine ⟨?_, by omega⟩
      rw [List.append_assoc]
      rfl

/-- C8. An ingestion job whose extraction returns the empty string (with no
PDF fallback text and a non-image file) leaves the document in status
`uploaded` with `text_extracted` still false, performs zero
embedding-provider calls and inserts nothing into the vector index. -/
theorem ingest_empty_extraction_uploaded
    (env : IngestEnv) (company : List Char) (docId : Nat) (doc : Doc)
    (store : List EmbRow) (dealId : Nat)
    (hfp : doc.file_path ≠ none)
    (hex : env.fileExists = true)
    (hres : env.extractResult = .ok [])
    (hpdf : pySuffix doc.file_name = ".pdf" → env.pdfFallback = [])
    (himg : pySuffix doc.file_name ∉ imgExts)
    (htx : doc.text_extracted = false) :
    ingest_document env dealId company docId doc store =
      .ok ({ doc with
              processing_status := "uploaded",
              processing_error := some "No text extracted" }, store, 0) ∧
    ({ doc with
        processing_status := "uploaded",
        processing_error := some "No text extracted" } : Doc).text_extracted = false := by
  have heff : effectiveExtracted env doc [] = [] := by
    unfold effectiveExtracted
    by_cases hs : pySuffix doc.file_name = ".pdf"
    · simp [hs, hpdf hs]
      intro hmem
      exact absurd hmem (by decide)
    · simp [hs, himg]
  constructor
  · unfold ingest_document
    rw [if_neg hfp, hex, if_neg (by simp), hres]
    simp [heff]
  · simp [htx]

/-- Witness for C8 at a concrete text file whose extraction returned "". -/
theorem ingest_empty_extraction_uploaded_witness :
    ingest_document ⟨true, .ok [], [], fun _ => .error "never"⟩ 1 []
        7 ⟨['a', '.', 't', 'x', 't'], some ['p'], none, "queued", none, none, false, false, 0⟩ [] =
      .ok (⟨['a', '.', 't', 'x', 't'], some ['p'], none, "uploaded",
            some "No text extracted", none, false, false, 0⟩, [], 0) :=
  ((ingest_empty_extraction_uploaded ⟨true, .ok [], [], fun _ => .error "never"⟩ [] 7
      ⟨['a', '.', 't', 'x', 't'], some ['p'], none, "queued", none, none, false, false, 0⟩ [] 1
      (by decide) rfl rfl (by decide) (by decide) rfl).1)

/-- C3 counterexample: a document with exactly one chunk whose embedding
call raises ends the loop with zero rows indexed, one provider call made,
and `embeddings_created = true` nevertheless — so "`embeddings_created` is
true iff at least one chunk was actually indexed" fails here (zero indexed,
flag true). -/
theorem embeddings_created_without_index_counterexample :
    ((ingest_document ⟨true, .ok ['h', 'e', 'l', 'l', 'o'], [], fun _ => .error "boom"⟩
        1 [] 7 ⟨['a', '.', 't', 'x', 't'], some ['p'], none, "queued", none, none, false, false, 0⟩
        []).toOption.map
      (fun x => (x.1.embeddings_created, x.2.1.length, x.2.2))) = some (true, 0, 1) ∧
    ¬ (true = decide ((0 : Nat) ≥ 1)) := by
  decide

/-- C3 (amended). During ingestion of a document whose (post-fallback)
extraction text is non-empty: every chunk's embedding failure is swallowed
(the chunk contributes no row) while every chunk still gets its own
provider call, the rows inserted are exactly those of the chunks whose
embedding succeeded, in chunk order, and `embeddings_created` is set to
"the chunk list is non-empty" — irrespective of how many chunks were
actually indexed. -/
theorem ingest_partial_embedding_semantics
    (env : IngestEnv) (dealId : Nat) (company : List Char) (docId : Nat) (doc : Doc)
    (store : List EmbRow) (t : List Char)
    (hfp : doc.file_path ≠ none)
    (hex : env.fileExists = true)
    (hres : env.extractResult = .ok t)
    (hne : effectiveExtracted env doc t ≠ []) :
    ingest_document env dealId company docId doc store =
      .ok ({ doc with
              extracted_text := some (effectiveExtracted env doc t),
              text_extracted := true,
              text_chunks_count := (chunk_text (effectiveExtracted env doc t) 1000 100).length,
              embeddings_created :=
                decide (chunk_text (effectiveExtracted env doc t) 1000 100 ≠ []),
              processing_status :=
                if chunk_text (effectiveExtracted env doc t) 1000 100 ≠ [] then "completed"
                else "processed",
              processing_error := none },
        store ++ (chunk_text (effectiveExtracted env doc t) 1000 100).enum.filterMap (fun p =>
          match env.embed p.1 with
          | .error _ => none
          | .ok v => some (rowOf dealId docId company doc p v)),
        (chunk_text (effectiveExtracted env doc t) 1000 100).enum.length) := by
  unfold ingest_document
  rw [if_neg hfp, hex, if_neg (by simp), hres]
  simp only [if_neg hne]
  rw [ingest_loop_spec env.embed (rowOf dealId docId company doc)
    (chunk_text (effectiveExtracted env doc t) 1000 100).enum store 0]
  simp

/-- Witness for C3: one chunk, embedding fails, loop swallows the failure:
no row indexed, one call made, `embeddings_created` still true. -/
theorem ingest_partial_embedding_semantics_witness :
    ingest_document ⟨true, .ok ['h', 'i'], [], fun _ => .error "rate"⟩ 1 [] 7
        ⟨['c', '.', 't', 'x', 't'], some ['p'], none, "queued", none, none, false, false, 0⟩ [] =
      .ok (⟨['c', '.', 't', 'x', 't'], some ['p'], none, "completed", none,
            some ['h', 'i'], true, true, 1⟩, [], 1) := by
  have h := ingest_partial_embedding_semantics
    ⟨true, .ok ['h', 'i'], [], fun _ => .error "rate"⟩ 1 [] 7
    ⟨['c', '.', 't', 'x', 't'], some ['p'], none, "queued", none, none, false, false, 0⟩ []
    ['h', 'i'] (by decide) rfl rfl (by decide)
  rw [h]
  rfl

/-- The outcome of the first ingestion of document 7 in the C1 scenario
(text `"hi"`, one chunk, embedding succeeds). -/
def reingestFirst : Doc × List EmbRow × Nat :=
  (ingest_document ⟨true, .ok ['h', 'i'], [], fun _ => .ok [1]⟩ 1 [] 7
    ⟨['b', '.', 't', 'x', 't'], some ['p'], none, "queued", none, none, false, false, 0⟩
    []).toOption.getD
      (⟨['b', '.', 't', 'x', 't'], some ['p'], none, "queued", none, none, false, false, 0⟩, [], 0)

/-- The outcome of ingesting the same document again, starting from the
table the first ingestion left behind. -/
def reingestSecond : Doc × List EmbRow × Nat :=
  (ingest_document ⟨true, .ok ['h', 'i'], [], fun _ => .ok [1]⟩ 1 [] 7
    reingestFirst.1 reingestFirst.2.1).toOption.getD (reingestFirst.1, [], 0)

/-- C1 evaluated at the failing input: re-ingesting document 7 leaves the
first ingestion's chunk row in the table (the final table is the old table
with the new rows appended — two rows for the document instead of one).
No path in `_ingest_document`, nor any caller in the repository, invokes
`VectorStore.delete_embeddings` first, so the claimed delete-before-insert
never happens. -/
theorem reingestion_keeps_stale_rows :
    reingestFirst.2.1.length = 1 ∧
    reingestSecond.2.1 = reingestFirst.2.1 ++ reingestFirst.2.1 ∧
    reingestSecond.2.1.countP (fun r => decide (r.document_id = 7)) = 2 := by
  decide

/-- A `VectorStore.similarity_search` hit. The `id` column (a random UUID)
and `section_title` (always NULL at the embedded call sites) are omitted;
the remaining columns are selected as in the SQL. -/
structure RetrievalResult where
  deal_id : Nat
  document_id : Nat
  score : ℚ
  content : List Char
  file_name : List Char
  chunk_index : Nat
  file_type : List Char
deriving DecidableEq

/-- The WHERE clause of `similarity_search`: an optional `deal_id = %s`
predicate and an optional `document_id = ANY(%s)` predicate, AND-combined.
Python truthiness makes an *empty* `document_ids` list behave like no
filter at all (`if document_ids:`). -/
def rowFilter (deal_id : Option Nat) (document_ids : Option (List Nat)) (r : EmbRow) : Bool :=
  (match deal_id with
   | none => true
   | some d => decide (r.deal_id = d)) &&
  (match document_ids with
   | none => true
   | some ds => if ds = [] then true else ds.contains r.document_id)

/-- The SELECT list: `1 - (embedding <=> %s) AS score` plus the provenance
columns copied from the row; `dist` abstracts pgvector's cosine-distance
operator `<=>` for the query vector. -/
def mkResult (dist : List ℚ → List ℚ → ℚ) (q : List ℚ) (r : EmbRow) : RetrievalResult :=
  ⟨r.deal_id, r.document_id, 1 - dist q r.embedding, r.content, r.file_name,
    r.chunk_index, r.file_type⟩

/-- The guarantee `ORDER BY embedding <=> %s ASC` gives about the row
order: it is some permutation of the filtered rows that is non-decreasing
in distance. The query has no secondary sort key, so the order among
equal-distance rows is left unspecified — Postgres promises no tie
stability. -/
def ordByDistAsc (dist : List ℚ → List ℚ → ℚ) (q : List ℚ)
    (filtered sorted : List EmbRow) : Prop :=
  sorted.Perm filtered ∧
    sorted.Pairwise (fun a b => dist q a.embedding ≤ dist q b.embedding)

/-- `VectorStore.similarity_search` as the relation between its inputs and
an admissible result list: filter by the optional deal/document
predicates, take any row order the ORDER BY clause admits, truncate to
`LIMIT top_k` and build the result rows. -/
def similarity_search (dist : List ℚ → List ℚ → ℚ) (table : List EmbRow)
    (embedding : List ℚ) (top_k : Nat) (deal_id : Option Nat)
    (document_ids : Option (List Nat)) (res : List RetrievalResult) : Prop :=
  ∃ sorted,
    ordByDistAsc dist embedding (table.filter (rowFilter deal_id document_ids)) sorted ∧
    res = (sorted.take top_k).map (mkResult dist embedding)

/-- C6 counterexample: with two equal-distance rows inserted in the order
`[row 7, row 8]`, the result listing row 8 first is an admissible output
of the query (the ORDER BY constraint, having no secondary key, allows
either tie order), and it differs from the insertion-order listing — so
"ties broken by underlying insertion order" is not a guarantee the
program provides. -/
theorem similarity_search_tie_order_counterexample :
    similarity_search (fun _ _ => (0 : ℚ))
      [⟨1, 7, ['x'], [0], [], [], [], 0, 1⟩, ⟨1, 8, ['y'], [0], [], [], [], 0, 1⟩]
      [5] 12 none none
      [mkResult (fun _ _ => (0 : ℚ)) [5] ⟨1, 8, ['y'], [0], [], [], [], 0, 1⟩,
       mkResult (fun _ _ => (0 : ℚ)) [5] ⟨1, 7, ['x'], [0], [], [], [], 0, 1⟩] ∧
    [mkResult (fun _ _ => (0 : ℚ)) [5] ⟨1, 8, ['y'], [0], [], [], [], 0, 1⟩,
       mkResult (fun _ _ => (0 : ℚ)) [5] ⟨1, 7, ['x'], [0], [], [], [], 0, 1⟩] ≠
      [mkResult (fun _ _ => (0 : ℚ)) [5] ⟨1, 7, ['x'], [0], [], [], [], 0, 1⟩,
       mkResult (fun _ _ => (0 : ℚ)) [5] ⟨1, 8, ['y'], [0], [], [], [], 0, 1⟩] := by
  constructor
  · refine ⟨[⟨1, 8, ['y'], [0], [], [], [], 0, 1⟩, ⟨1, 7, ['x'], [0], [], [], [], 0, 1⟩],
      ⟨?_, ?_⟩, ?_⟩
    · decide
    · decide
    · rfl
  · decide

/-- C6 (amended). Every admissible result of the similarity search assigns
each hit the score `1 - dist(query, candidate)` of some table row, has
non-increasing scores along the returned sequence (ascending by distance)
and contains at most `top_k` hits. The order among equal-distance
candidates is unspecified, the query having no secondary sort key. -/
theorem similarity_search_ranked
    (dist : List ℚ → List ℚ → ℚ) (table : List EmbRow) (q : List ℚ)
    (top_k : Nat) (dealF : Option Nat) (docsF : Option (List Nat))
    (res : List RetrievalResult)
    (h : similarity_search dist table q top_k dealF docsF res) :
    res.length ≤ top_k ∧
    (∀ hit ∈ res, ∃ r, r ∈ table ∧ hit = mkResult dist q r ∧
      hit.score = 1 - dist q r.embedding) ∧
    (∀ (d0 : RetrievalResult) (i j : Nat), i ≤ j → j < res.length →
      (res.getD j d0).score ≤ (res.getD i d0).score) := by
  obtain ⟨sorted, ⟨hperm, hpair⟩, hres⟩ := h
  subst hres
  refine ⟨?_, ?_, ?_⟩
  · rw [List.length_map, List.length_take]
    exact min_le_left _ _
  · intro hit hmem
    rw [List.mem_map] at hmem
    obtain ⟨r, hr, heq⟩ := hmem
    have hr1 : r ∈ sorted := List.take_subset _ _ hr
    have hr2 : r ∈ table.filter (rowFilter dealF docsF) := hperm.mem_iff.mp hr1
    exact ⟨r, List.mem_of_mem_filter hr2, heq.symm, by rw [← heq]; rfl⟩
  · intro d0 i j hij hj
    have hi : i < ((sorted.take top_k).map (mkResult dist q)).length :=
      lt_of_le_of_lt hij hj
    rcases Nat.lt_or_ge i j with hlt | hge
    · have hp : (sorted.take top_k).Pairwise
          (fun a b => dist q a.embedding ≤ dist q b.embedding) :=
        hpair.sublist (List.take_sublist _ _)
      have hp2 : ((sorted.take top_k).map (mkResult dist q)).Pairwise
          (fun x y => y.score ≤ x.score) := by
        refine hp.map (mkResult dist q) ?_
        intro a b hab
        simp only [mkResult]
        exact sub_le_sub_left hab 1
      rw [List.getD_eq_getElem _ _ hj, List.getD_eq_getElem _ _ hi]
      exact (List.pairwise_iff_getElem.mp hp2) i j hi hj hlt
    · rw [le_antisymm hij hge]

/-- Witness for C6: on a one-row table the singleton result is admissible
and its single score is trivially non-increasing (indices 0 ≤ 0 within
bounds). -/
theorem similarity_search_ranked_witness :
    ((0 : Nat) ≤ 0) ∧
    0 < ([mkResult (fun _ _ => (0 : ℚ)) [5] ⟨1, 7, ['x'], [2], [], [], [], 0, 1⟩] :
        List RetrievalResult).length ∧
    (([mkResult (fun _ _ => (0 : ℚ)) [5] ⟨1, 7, ['x'], [2], [], [], [], 0, 1⟩] :
        List RetrievalResult).getD 0
        (mkResult (fun _ _ => (0 : ℚ)) [5] ⟨1, 7, ['x'], [2], [], [], [], 0, 1⟩)).score ≤
      (([mkResult (fun _ _ => (0 : ℚ)) [5] ⟨1, 7, ['x'], [2], [], [], [], 0, 1⟩] :
        List RetrievalResult).getD 0
        (mkResult (fun _ _ => (0 : ℚ)) [5] ⟨1, 7, ['x'], [2], [], [], [], 0, 1⟩)).score := by
  have h : similarity_search (fun _ _ => (0 : ℚ)) [⟨1, 7, ['x'], [2], [], [], [], 0, 1⟩]
      [5] 12 none none
      [mkResult (fun _ _ => (0 : ℚ)) [5] ⟨1, 7, ['x'], [2], [], [], [], 0, 1⟩] :=
    ⟨[⟨1, 7, ['x'], [2], [], [], [], 0, 1⟩], ⟨by decide, by decide⟩, rfl⟩
  exact ⟨le_refl 0, by decide,
    (similarity_search_ranked (fun _ _ => (0 : ℚ)) [⟨1, 7, ['x'], [2], [], [], [], 0, 1⟩]
      [5] 12 none none _ h).2.2
      (mkResult (fun _ _ => (0 : ℚ)) [5] ⟨1, 7, ['x'], [2], [], [], [], 0, 1⟩)
      0 0 (le_refl 0) (by decide)⟩

/-- The structured summary JSON produced by `FileSummarizer` (fields of the
fixed schema; entry sub-structure is irrelevant to the claims and kept as
plain strings). -/
structure SummaryJson where
  filename : List Char
  purpose : String
  key_entities : List (List Char)
  pain_points : List (List Char)
  risks : List (List Char)
  integration_complexity : String
  unknowns : List (List Char)
  effort_multipliers : List (List Char)
  must_read_sections : List (List Char)
  evidence_quotes : List (List Char)
  importance_score : Nat
deriving DecidableEq

/-- `FileSummarizer._minimal_stub`. -/
def minimal_stub (filename : List Char) : SummaryJson :=
  ⟨filename, "Summary unavailable (Gemini disabled).", [], [], [], "", [], [], [], [], 0⟩

/-- One outcome of `self._model.generate_content` as observed by the retry
loop: a `GoogleAPIError` (rate limit), any other exception — including an
empty response or a `_parse_json` failure, which the generic `except`
turns into a `break` — or a successfully parsed summary. -/
inductive GeminiOutcome where
  | rateLimit
  | failure
  | ok (summary : SummaryJson)

/-- `wait = min(20, 5 * (2 ** attempt))`. -/
def backoffWait (attempt : Nat) : Nat :=
  min 20 (5 * 2 ^ attempt)

/-- One iteration of the retry loop: a success returns the parsed summary,
any other failure breaks to the stub, and a rate limit sleeps
`backoffWait attempt` and continues with the recursive rest. Each
iteration accounts for exactly one provider call. -/
def summarize_step (filename : List Char) :
    GeminiOutcome → (SummaryJson × List Nat × Nat) → Nat → SummaryJson × List Nat × Nat
  | .ok s, _, _ => (s, [], 1)
  | .failure, _, _ => (minimal_stub filename, [], 1)
  | .rateLimit, rest, attempt => (rest.1, backoffWait attempt :: rest.2.1, rest.2.2 + 1)

/-- The `while attempt < 3` retry loop of
`FileSummarizer.summarize_document`, with `fuel = 3 - attempt`. Returns the
summary, the list of waits slept before each retry, and the number of
provider calls made. -/
def summarize_loop (filename : List Char) (outcomes : Nat → GeminiOutcome) :
    Nat → Nat → SummaryJson × List Nat × Nat
  | 0, _ => (minimal_stub filename, [], 0)
  | fuel + 1, attempt =>
    summarize_step filename (outcomes attempt)
      (summarize_loop filename outcomes fuel (attempt + 1)) attempt

/-- `FileSummarizer.summarize_document` around the loop: a readable cache
hit is returned unchanged with no provider call; with no model configured
the stub is returned with no provider call; otherwise the retry loop runs
from `attempt = 0`, and falling out of it (exhausted retries or a
non-rate-limit failure) yields the minimal stub. -/
def summarize_document (modelAvailable : Bool) (cached : Option SummaryJson)
    (filename : List Char) (outcomes : Nat → GeminiOutcome) :
    SummaryJson × List Nat × Nat :=
  match cached with
  | some s => (s, [], 0)
  | none =>
    if modelAvailable = false then (minimal_stub filename, [], 0)
    else summarize_loop filename outcomes 3 0

theorem summarize_loop_succ (filename : List Char) (outcomes : Nat → GeminiOutcome)
    (fuel attempt : Nat) :
    summarize_loop filename outcomes (fuel + 1) attempt =
      summarize_step filename (outcomes attempt)
        (summarize_loop filename outcomes fuel (attempt + 1)) attempt := rfl

theorem summarize_loop_calls_le (filename : List Char) (outcomes : Nat → GeminiOutcome) :
    ∀ fuel attempt, (summarize_loop filename outcomes fuel attempt).2.2 ≤ fuel := by
  intro fuel
  induction fuel with
  | zero => intro attempt; simp [summarize_loop]
  | succ k ih =>
    intro attempt
    rw [summarize_loop_succ]
    cases houts : outcomes attempt with
    | ok s => simp [summarize_step]
    | failure => simp [summarize_step]
    | rateLimit =>
      simp only [summarize_step]
      have := ih (attempt + 1)
      omega

theorem summarize_loop_waits (filename : List Char) (outcomes : Nat → GeminiOutcome) :
    ∀ fuel attempt i, i < (summarize_loop filename outcomes fuel attempt).2.1.length →
      (summarize_loop filename outcomes fuel attempt).2.1.getD i 0 =
        backoffWait (attempt + i) := by
  intro fuel
  induction fuel with
  | zero => intro attempt i h; simp [summarize_loop] at h
  | succ k ih =>
    intro attempt i h
    rw [summarize_loop_succ] at h ⊢
    cases houts : outcomes attempt with
    | ok s =>
      rw [houts] at h
      simp only [summarize_step, List.length_nil] at h
      omega
    | failure =>
      rw [houts] at h
      simp only [summarize_step, List.length_nil] at h
      omega
    | rateLimit =>
      rw [houts] at h
      simp only [summarize_step, List.length_cons] at h ⊢
      cases i with
      | zero => simp
      | succ j =>
        simp only [List.getD_cons_succ]
        have := ih (attempt + 1) j (by omega)
        rw [this]
        congr 1
        omega

/-- C7. With a configured model and no cache hit: the retry loop makes at
most 3 provider calls in total; the wait before the retry after attempt
`a` is `min(20, 5 * 2 ^ a)` seconds (`a` counted from 0); three
consecutive rate limits exhaust the retries and fall back to the minimal
stub after waits 5, 10, 20; a non-rate-limit failure at any attempt
(preceded only by rate limits) also falls back to the minimal stub; and
the stub has empty/zero fields with the explanatory purpose string. -/
theorem summarize_retry_backoff_stub (filename : List Char) (outcomes : Nat → GeminiOutcome) :
    (summarize_document true none filename outcomes).2.2 ≤ 3 ∧
    (∀ a, a < (summarize_document true none filename outcomes).2.1.length →
      (summarize_document true none filename outcomes).2.1.getD a 0 = min 20 (5 * 2 ^ a)) ∧
    ((∀ a, a < 3 → outcomes a = GeminiOutcome.rateLimit) →
      summarize_document true none filename outcomes =
        (minimal_stub filename, [5, 10, 20], 3)) ∧
    (∀ a, a < 3 → (∀ b, b < a → outcomes b = GeminiOutcome.rateLimit) →
      outcomes a = GeminiOutcome.failure →
      (summarize_document true none filename outcomes).1 = minimal_stub filename) ∧
    ((minimal_stub filename).purpose = "Summary unavailable (Gemini disabled)." ∧
      (minimal_stub filename).key_entities = [] ∧
      (minimal_stub filename).pain_points = [] ∧
      (minimal_stub filename).risks = [] ∧
      (minimal_stub filename).integration_complexity = "" ∧
      (minimal_stub filename).unknowns = [] ∧
      (minimal_stub filename).effort_multipliers = [] ∧
      (minimal_stub filename).must_read_sections = [] ∧
      (minimal_stub filename).evidence_quotes = [] ∧
      (minimal_stub filename).importance_score = 0) := by
  have hsd : summarize_document true none filename outcomes =
      summarize_loop filename outcomes 3 0 := rfl
  have e0 : summarize_loop filename outcomes 3 0 =
      summarize_step filename (outcomes 0) (summarize_loop filename outcomes 2 1) 0 := rfl
  have e1 : summarize_loop filename outcomes 2 1 =
      summarize_step filename (outcomes 1) (summarize_loop filename outcomes 1 2) 1 := rfl
  have e2 : summarize_loop filename outcomes 1 2 =
      summarize_step filename (outcomes 2) (summarize_loop filename outcomes 0 3) 2 := rfl
  have e3 : summarize_loop filename outcomes 0 3 = (minimal_stub filename, [], 0) := rfl
  refine ⟨?_, ?_, ?_, ?_, rfl, rfl, rfl, rfl, rfl, rfl, rfl, rfl, rfl, rfl⟩
  · rw [hsd]
    exact summarize_loop_calls_le filename outcomes 3 0
  · intro a ha
    rw [hsd] at ha ⊢
    rw [summarize_loop_waits filename outcomes 3 0 a ha]
    rw [Nat.zero_add]
    rfl
  · intro hall
    have h0 := hall 0 (by norm_num)
    have h1 := hall 1 (by norm_num)
    have h2 := hall 2 (by norm_num)
    rw [hsd, e0, h0]
    simp only [summarize_step]
    rw [e1, h1]
    simp only [summarize_step]
    rw [e2, h2]
    simp only [summarize_step]
    rw [e3]
    simp [backoffWait]
  · intro a ha hprev hfail
    rw [hsd]
    interval_cases a
    · rw [e0, hfail]
      simp [summarize_step]
    · have h0 := hprev 0 (by norm_num)
      rw [e0, h0]
      simp only [summarize_step]
      rw [e1, hfail]
      simp [summarize_step]
    · have h0 := hprev 0 (by norm_num)
      have h1 := hprev 1 (by norm_num)
      rw [e0, h0]
      simp only [summarize_step]
      rw [e1, h1]
      simp only [summarize_step]
      rw [e2, hfail]
      simp [summarize_step]

/-- Witness for C7: three consecutive rate limits produce the minimal stub
after waits of 5, 10 and 20 seconds and exactly 3 provider calls. -/
theorem summarize_retry_backoff_stub_witness :
    summarize_document true none ['f'] (fun _ => GeminiOutcome.rateLimit) =
      (minimal_stub ['f'], [5, 10, 20], 3) :=
  (summarize_retry_backoff_stub ['f'] (fun _ => GeminiOutcome.rateLimit)).2.2.1
    (fun _ _ => rfl)

theorem dropWhile_idem (p : Char → Bool) (l : List Char) :
    (l.dropWhile p).dropWhile p = l.dropWhile p := by
  induction l with
  | nil => rfl
  | cons c t ih =>
    rw [List.dropWhile_cons]
    by_cases h : p c
    · rw [if_pos h]
      exact ih
    · rw [if_neg h, List.dropWhile_cons, if_neg h]

/-- Stripping is idempotent: a stripped string strips to itself. -/
theorem pyStrip_idem (s : List Char) : pyStrip (pyStrip s) = pyStrip s := by
  unfold pyStrip
  have h1 : (((s.dropWhile isPySpace).reverse.dropWhile isPySpace).reverse).dropWhile
      isPySpace = ((s.dropWhile isPySpace).reverse.dropWhile isPySpace).reverse := by
    cases hrev : ((s.dropWhile isPySpace).reverse.dropWhile isPySpace).reverse with
    | nil => simp
    | cons c t =>
      have hpre : ((s.dropWhile isPySpace).reverse.dropWhile isPySpace).reverse <+:
          s.dropWhile isPySpace := by
        have hbase := (@List.reverse_prefix Char
            ((s.dropWhile isPySpace).reverse.dropWhile isPySpace)
            ((s.dropWhile isPySpace).reverse)).mpr
          (List.dropWhile_suffix isPySpace)
        rw [List.reverse_reverse] at hbase
        exact hbase
      obtain ⟨t2, ht2⟩ := hpre
      rw [hrev] at ht2
      have hmatch := List.head?_dropWhile_not isPySpace s
      have hhead : (s.dropWhile isPySpace).head? = some c := by
        rw [← ht2]
        rfl
      rw [hhead] at hmatch
      have hc : isPySpace c = false := hmatch
      rw [List.dropWhile_cons, hc]
      simp
  rw [h1, List.reverse_reverse, dropWhile_idem]

/-- The extension dispatch table of `extraction.extract_text`. -/
def knownExts : List String :=
  [".txt", ".md", ".pdf", ".docx", ".xlsx", ".csv", ".pptx"]

/-- One source file as seen by `extraction.extract_text`, with each external
library call an oracle. `readText` is `path.read_text(...)` (it can raise,
e.g. on a missing file); `fitzPages` is the per-page `get_text` output of
the fitz pass (`error` = `fitz.open`/iteration raised, which the code
catches); `pdfReader` is the PyPDF2 reader (`error` = the *constructor*
raised, which is not caught; per-page `extract_text` errors are caught and
become empty pages); `docxParas` are the DOCX paragraph texts (`error` =
`DocxDocument` raised, uncaught); `xlsxLoad` is the `load_workbook` call
(`error` = it raised, which the code catches); `xlsxIter` is the
subsequent `worksheets`/`iter_rows` iteration producing the sheet titles
and cell grids (`error` = the iteration raised — it sits in a
`try/finally` that only closes the workbook, so the exception propagates,
uncaught); `csvRows` are the
CSV rows (`error` = the file open raised, uncaught); `pptxEntries` are the
archive member names and decoded payloads (`error` = `ZipFile` raised,
uncaught). -/
structure SrcFile where
  path : List Char
  readText : Except String (List Char)
  fitzAvail : Bool
  fitzPages : Except String (List (List Char))
  pdfReader : Except String (List (Except String (List Char)))
  docxParas : Except String (List (List Char))
  xlsxLoad : Except String Unit
  xlsxIter : Except String (List (List Char × List (List (Option (List Char)))))
  csvRows : Except String (List (List (List Char)))
  pptxEntries : Except String (List (List Char × List Char))

/-- `f"--- Page {idx} ---\n{text.strip()}"`. -/
def pageEntry (idx : Nat) (text : List Char) : List Char :=
  ("--- Page ").toList ++ (toString idx).toList ++ (" ---").toList ++
    '\n' :: pyStrip text

/-- The page list built by the fitz pass of `_extract_pdf`: empty when fitz
is unavailable or raised, otherwise the non-blank pages with their page
markers. -/
def fitzPageList (f : SrcFile) : List (List Char) :=
  if f.fitzAvail then
    match f.fitzPages with
    | .error _ => []
    | .ok raws => raws.enum.filterMap (fun p =>
        if pyStrip p.2 ≠ [] then some (pageEntry (p.1 + 1) p.2) else none)
  else []

/-- `extraction._extract_pdf`: fitz pass first; if it produced no pages the
PyPDF2 fallback runs (its constructor failure propagates; per-page
failures yield empty page text, dropped like blank pages). -/
def extract_pdf (f : SrcFile) : Except String (List Char) :=
  let pages := fitzPageList f
  if pages = [] then
    match f.pdfReader with
    | .error e => .error e
    | .ok readerPages =>
      .ok (pyStrip (List.intercalate (("\n\n").toList) (readerPages.enum.filterMap (fun p =>
        let text := match p.2 with
          | .error _ => []
          | .ok t => t
        if pyStrip text ≠ [] then some (pageEntry (p.1 + 1) text) else none))))
  else .ok (pyStrip (List.intercalate (("\n\n").toList) pages))

/-- `extraction._extract_docx`. -/
def extract_docx (f : SrcFile) : Except String (List Char) :=
  match f.docxParas with
  | .error e => .error e
  | .ok paras =>
    .ok (pyStrip (List.intercalate ['\n'] (paras.filterMap (fun p =>
      if p ≠ [] ∧ pyStrip p ≠ [] then some (pyStrip p) else none))))

/-- `extraction._extract_xlsx`: a `load_workbook` failure is caught and
yields empty text, but a failure while iterating `worksheets`/`iter_rows`
propagates (the surrounding `try/finally` only closes the workbook); at
most 10 sheets; blank rows skipped; cells tab-joined (`None` renders as
the empty string). The row/column caps of `iter_rows` are part of the
oracle data. -/
def extract_xlsx (f : SrcFile) : Except String (List Char) :=
  match f.xlsxLoad with
  | .error _ => .ok []
  | .ok _ =>
    match f.xlsxIter with
    | .error e => .error e
    | .ok sheets =>
    .ok (pyStrip (List.intercalate ['\n'] ((sheets.take 10).flatMap (fun sh =>
      (("--- Sheet: ").toList ++ sh.1 ++ (" ---").toList) ::
        sh.2.filterMap (fun row =>
          if (row.map (fun cell => cell.getD [])).any (fun v => v ≠ []) then
            some (List.intercalate ['\t'] (row.map (fun cell => cell.getD [])))
          else none)))))

/-- `extraction._extract_csv`. -/
def extract_csv (f : SrcFile) : Except String (List Char) :=
  match f.csvRows with
  | .error e => .error e
  | .ok rows =>
    .ok (pyStrip (List.intercalate ['\n'] (rows.map (List.intercalate [',']))))

/-- Scan for the first `>`: the regex `<[^>]+>` matches iff a `>` follows a
non-empty `>`-free body. Returns the body and the rest after the `>`. -/
def splitTag : List Char → List Char → Option (List Char × List Char)
  | _, [] => none
  | acc, '>' :: rest => if acc = [] then none else some (acc.reverse, rest)
  | acc, c :: rest => splitTag (c :: acc) rest

theorem splitTag_length : ∀ (l acc : List Char) (body rest : List Char),
    splitTag acc l = some (body, rest) → rest.length < l.length := by
  intro l
  induction l with
  | nil => intro acc body rest h; simp [splitTag] at h
  | cons c t ih =>
    intro acc body rest h
    by_cases hc : c = '>'
    · subst hc
      rw [splitTag] at h
      by_cases hacc : acc = []
      · rw [if_pos hacc] at h
        cases h
      · rw [if_neg hacc] at h
        injection h with h1
        injection h1 with h2 h3
        subst h3
        simp
    · have hstep : splitTag acc (c :: t) = splitTag (c :: acc) t := by
        simp [splitTag, hc]
      rw [hstep] at h
      have := ih (c :: acc) body rest h
      simp only [List.length_cons]
      omega

/-- `extraction._strip_xml_tags` without the final trim: replace each
regex match `<[^>]+>` with a space, leave unmatched `<` as-is, and replace
`&amp;` with `&`. -/
def stripTagsCore : List Char → List Char
  | [] => []
  | '<' :: rest =>
    match h : splitTag [] rest with
    | some br => ' ' :: stripTagsCore br.2
    | none => '<' :: stripTagsCore rest
  | c :: rest => c :: stripTagsCore rest
termination_by l => l.length
decreasing_by
  · have := splitTag_length rest [] br.1 br.2 (by rw [h])
    simp only [List.length_cons]
    omega
  · simp
  · simp

/-- Python `replace("&amp;", "&")`. -/
def replaceAmp : List Char → List Char
  | '&' :: 'a' :: 'm' :: 'p' :: ';' :: rest => '&' :: replaceAmp rest
  | c :: rest => c :: replaceAmp rest
  | [] => []

/-- `extraction._strip_xml_tags`. -/
def strip_xml_tags (xml : List Char) : List Char :=
  pyStrip (replaceAmp (stripTagsCore xml))

/-- A pptx archive member holding slide XML:
`filename.startswith("ppt/slides/slide") and filename.endswith(".xml")`. -/
def isSlideXml (name : List Char) : Bool :=
  (("ppt/slides/slide").toList).isPrefixOf name && ((".xml").toList).isSuffixOf name

/-- `extraction._extract_pptx`. -/
def extract_pptx (f : SrcFile) : Except String (List Char) :=
  match f.pptxEntries with
  | .error e => .error e
  | .ok entries =>
    .ok (pyStrip (List.intercalate (("\n\n").toList) (entries.filterMap (fun ent =>
      if isSlideXml ent.1 then
        if strip_xml_tags ent.2 ≠ [] then some (strip_xml_tags ent.2) else none
      else none))))

/-- `extraction.extract_text`: pure extension dispatch; unknown extensions
yield empty text. -/
def extract_text (f : SrcFile) : Except String (List Char) :=
  if pySuffix f.path = ".txt" ∨ pySuffix f.path = ".md" then f.readText
  else if pySuffix f.path = ".pdf" then extract_pdf f
  else if pySuffix f.path = ".docx" then extract_docx f
  else if pySuffix f.path = ".xlsx" then extract_xlsx f
  else if pySuffix f.path = ".csv" then extract_csv f
  else if pySuffix f.path = ".pptx" then extract_pptx f
  else .ok []

theorem extract_docx_error_iff (f : SrcFile) (e : String) :
    extract_docx f = .error e ↔ f.docxParas = .error e := by
  cases hd : f.docxParas <;> simp [extract_docx, hd]

theorem extract_csv_error_iff (f : SrcFile) (e : String) :
    extract_csv f = .error e ↔ f.csvRows = .error e := by
  cases hd : f.csvRows <;> simp [extract_csv, hd]

theorem extract_pptx_error_iff (f : SrcFile) (e : String) :
    extract_pptx f = .error e ↔ f.pptxEntries = .error e := by
  cases hd : f.pptxEntries <;> simp [extract_pptx, hd]

theorem extract_xlsx_error_iff (f : SrcFile) (e : String) :
    extract_xlsx f = .error e ↔ (f.xlsxLoad = .ok () ∧ f.xlsxIter = .error e) := by
  cases hl : f.xlsxLoad with
  | error e2 => simp [extract_xlsx, hl]
  | ok u =>
    cases u
    cases hi : f.xlsxIter <;> simp [extract_xlsx, hl, hi]

theorem extract_pdf_error_iff (f : SrcFile) (e : String) :
    extract_pdf f = .error e ↔ (fitzPageList f = [] ∧ f.pdfReader = .error e) := by
  unfold extract_pdf
  by_cases hp : fitzPageList f = []
  · rw [if_pos hp]
    cases hr : f.pdfReader <;> simp [hp, hr]
  · rw [if_neg hp]
    simp [hp]

theorem extract_docx_ok_stripped (f : SrcFile) (t : List Char)
    (h : extract_docx f = .ok t) : pyStrip t = t := by
  unfold extract_docx at h
  cases hd : f.docxParas with
  | error e => rw [hd] at h; cases h
  | ok paras =>
    rw [hd] at h
    injection h with h1
    rw [← h1]
    exact pyStrip_idem _

theorem extract_csv_ok_stripped (f : SrcFile) (t : List Char)
    (h : extract_csv f = .ok t) : pyStrip t = t := by
  unfold extract_csv at h
  cases hd : f.csvRows with
  | error e => rw [hd] at h; cases h
  | ok rows =>
    rw [hd] at h
    injection h with h1
    rw [← h1]
    exact pyStrip_idem _

theorem extract_pptx_ok_stripped (f : SrcFile) (t : List Char)
    (h : extract_pptx f = .ok t) : pyStrip t = t := by
  unfold extract_pptx at h
  cases hd : f.pptxEntries with
  | error e => rw [hd] at h; cases h
  | ok entries =>
    rw [hd] at h
    injection h with h1
    rw [← h1]
    exact pyStrip_idem _

theorem extract_xlsx_ok_stripped (f : SrcFile) (t : List Char)
    (h : extract_xlsx f = .ok t) : pyStrip t = t := by
  unfold extract_xlsx at h
  cases hl : f.xlsxLoad with
  | error e =>
    rw [hl] at h
    injection h with h1
    rw [← h1]
    rfl
  | ok u =>
    cases u
    rw [hl] at h
    cases hi : f.xlsxIter with
    | error e => rw [hi] at h; cases h
    | ok sheets =>
      rw [hi] at h
      injection h with h1
      rw [← h1]
      exact pyStrip_idem _

theorem extract_pdf_ok_stripped (f : SrcFile) (t : List Char)
    (h : extract_pdf f = .ok t) : pyStrip t = t := by
  unfold extract_pdf at h
  by_cases hp : fitzPageList f = []
  · rw [if_pos hp] at h
    cases hr : f.pdfReader with
    | error e => rw [hr] at h; cases h
    | ok pages =>
      rw [hr] at h
      injection h with h1
      rw [← h1]
      exact pyStrip_idem _
  · rw [if_neg hp] at h
    injection h with h1
    rw [← h1]
    exact pyStrip_idem _

/-- C4 (amended). `extract_text` returns empty text for unknown extensions
and catches failures of the fitz PDF pass and of the xlsx workbook load;
but it raises exactly when one of the unprotected calls raises: the text
file read, the PyPDF2 fallback constructor (after an empty fitz pass),
the xlsx sheet iteration (after a successful workbook load), or the
DOCX/CSV/PPTX extractors. Empty inputs yield empty results (txt/md
content is passed through unchanged — so whitespace-only text files come
back as-is — while every other format returns a stripped result, hence
never a whitespace-only one). -/
theorem extract_text_failure_modes (f : SrcFile) :
    (∀ e, extract_text f = .error e ↔
      (((pySuffix f.path = ".txt" ∨ pySuffix f.path = ".md") ∧ f.readText = .error e) ∨
        (pySuffix f.path = ".pdf" ∧ fitzPageList f = [] ∧ f.pdfReader = .error e) ∨
        (pySuffix f.path = ".docx" ∧ f.docxParas = .error e) ∨
        (pySuffix f.path = ".xlsx" ∧ f.xlsxLoad = .ok () ∧ f.xlsxIter = .error e) ∨
        (pySuffix f.path = ".csv" ∧ f.csvRows = .error e) ∨
        (pySuffix f.path = ".pptx" ∧ f.pptxEntries = .error e))) ∧
    ((pySuffix f.path = ".txt" ∨ pySuffix f.path = ".md") → extract_text f = f.readText) ∧
    (pySuffix f.path = ".xlsx" → ∀ e, f.xlsxLoad = .error e → extract_text f = .ok []) ∧
    (pySuffix f.path ∉ knownExts → extract_text f = .ok []) ∧
    (pySuffix f.path = ".pdf" → fitzPageList f = [] → f.pdfReader = .ok [] →
      extract_text f = .ok []) ∧
    (pySuffix f.path = ".docx" → f.docxParas = .ok [] → extract_text f = .ok []) ∧
    (∀ t, extract_text f = .ok t → pySuffix f.path ≠ ".txt" → pySuffix f.path ≠ ".md" →
      pyStrip t = t) := by
  refine ⟨?_, ?_, ?_, ?_, ?_, ?_, ?_⟩
  · intro e
    unfold extract_text
    by_cases h1 : pySuffix f.path = ".txt" ∨ pySuffix f.path = ".md"
    · rw [if_pos h1]
      have d1 : pySuffix f.path ≠ ".pdf" := by rcases h1 with h | h <;> rw [h] <;> decide
      have d2 : pySuffix f.path ≠ ".docx" := by rcases h1 with h | h <;> rw [h] <;> decide
      have d3 : pySuffix f.path ≠ ".csv" := by rcases h1 with h | h <;> rw [h] <;> decide
      have d4 : pySuffix f.path ≠ ".pptx" := by rcases h1 with h | h <;> rw [h] <;> decide
      have d5 : pySuffix f.path ≠ ".xlsx" := by rcases h1 with h | h <;> rw [h] <;> decide
      simp [h1, d1, d2, d3, d4, d5]
    · rw [if_neg h1]
      have hA : pySuffix f.path ≠ ".txt" := fun hh => h1 (Or.inl hh)
      have hB : pySuffix f.path ≠ ".md" := fun hh => h1 (Or.inr hh)
      by_cases h2 : pySuffix f.path = ".pdf"
      · rw [if_pos h2]
        have d2 : pySuffix f.path ≠ ".docx" := by rw [h2]; decide
        have d3 : pySuffix f.path ≠ ".csv" := by rw [h2]; decide
        have d4 : pySuffix f.path ≠ ".pptx" := by rw [h2]; decide
        have d5 : pySuffix f.path ≠ ".xlsx" := by rw [h2]; decide
        rw [extract_pdf_error_iff]
        simp [h2, hA, hB, d2, d3, d4, d5]
      · rw [if_neg h2]
        by_cases h3 : pySuffix f.path = ".docx"
        · rw [if_pos h3]
          have d3 : pySuffix f.path ≠ ".csv" := by rw [h3]; decide
          have d4 : pySuffix f.path ≠ ".pptx" := by rw [h3]; decide
          have d5 : pySuffix f.path ≠ ".xlsx" := by rw [h3]; decide
          rw [extract_docx_error_iff]
          simp [h3, hA, hB, h2, d3, d4, d5]
        · rw [if_neg h3]
          by_cases h4 : pySuffix f.path = ".xlsx"
          · rw [if_pos h4]
            have d3 : pySuffix f.path ≠ ".csv" := by rw [h4]; decide
            have d4 : pySuffix f.path ≠ ".pptx" := by rw [h4]; decide
            rw [extract_xlsx_error_iff]
            simp [h4, hA, hB, h2, h3, d3, d4]
          · rw [if_neg h4]
            by_cases h5 : pySuffix f.path = ".csv"
            · rw [if_pos h5]
              have d4 : pySuffix f.path ≠ ".pptx" := by rw [h5]; decide
              rw [extract_csv_error_iff]
              simp [h5, hA, hB, h2, h3, h4, d4]
            · rw [if_neg h5]
              by_cases h6 : pySuffix f.path = ".pptx"
              · rw [if_pos h6]
                rw [extract_pptx_error_iff]
                simp [h6, hA, hB, h2, h3, h4, h5]
              · rw [if_neg h6]
                simp [hA, hB, h2, h3, h4, h5, h6]
  · intro h12
    unfold extract_text
    rw [if_pos h12]
  · intro hx e he
    unfold extract_text
    have hA : pySuffix f.path ≠ ".txt" := by rw [hx]; decide
    have hB : pySuffix f.path ≠ ".md" := by rw [hx]; decide
    have d1 : pySuffix f.path ≠ ".pdf" := by rw [hx]; decide
    have d2 : pySuffix f.path ≠ ".docx" := by rw [hx]; decide
    rw [if_neg (by tauto), if_neg d1, if_neg d2, if_pos hx]
    unfold extract_xlsx
    rw [he]
  · intro hk
    simp only [knownExts, List.mem_cons, List.not_mem_nil, or_false] at hk
    push_neg at hk
    obtain ⟨k1, k2, k3, k4, k5, k6, k7⟩ := hk
    unfold extract_text
    rw [if_neg (by tauto), if_neg k3, if_neg k4, if_neg k5, if_neg k6, if_neg k7]
  · intro hpdf hfitz hreader
    unfold extract_text
    have hA : pySuffix f.path ≠ ".txt" := by rw [hpdf]; decide
    have hB : pySuffix f.path ≠ ".md" := by rw [hpdf]; decide
    rw [if_neg (by tauto), if_pos hpdf]
    unfold extract_pdf
    rw [if_pos hfitz, hreader]
    rfl
  · intro hdocx hparas
    unfold extract_text
    have hA : pySuffix f.path ≠ ".txt" := by rw [hdocx]; decide
    have hB : pySuffix f.path ≠ ".md" := by rw [hdocx]; decide
    have d1 : pySuffix f.path ≠ ".pdf" := by rw [hdocx]; decide
    rw [if_neg (by tauto), if_neg d1, if_pos hdocx]
    unfold extract_docx
    rw [hparas]
    rfl
  · intro t h hA hB
    unfold extract_text at h
    rw [if_neg (by tauto)] at h
    by_cases h2 : pySuffix f.path = ".pdf"
    · rw [if_pos h2] at h
      exact extract_pdf_ok_stripped f t h
    · rw [if_neg h2] at h
      by_cases h3 : pySuffix f.path = ".docx"
      · rw [if_pos h3] at h
        exact extract_docx_ok_stripped f t h
      · rw [if_neg h3] at h
        by_cases h4 : pySuffix f.path = ".xlsx"
        · rw [if_pos h4] at h
          exact extract_xlsx_ok_stripped f t h
        · rw [if_neg h4] at h
          by_cases h5 : pySuffix f.path = ".csv"
          · rw [if_pos h5] at h
            exact extract_csv_ok_stripped f t h
          · rw [if_neg h5] at h
            by_cases h6 : pySuffix f.path = ".pptx"
            · rw [if_pos h6] at h
              exact extract_pptx_ok_stripped f t h
            · rw [if_neg h6] at h
              injection h with h7
              rw [← h7]
              rfl

/-- C4 counterexample: a `.docx` file whose `DocxDocument` constructor
raises (a corrupt file) makes `extract_text` raise instead of returning
empty text — the exception is not caught anywhere in `extract_text`. -/
theorem extract_text_raises_counterexample :
    extract_text ⟨("f.docx").toList, .ok [], true, .ok [], .ok [], .error "boom",
      .ok (), .ok [], .ok [], .ok []⟩ = .error "boom" := by
  rfl

/-- Witness for C4: a text file containing a single space is passed
through unchanged (not emptied, not an error). -/
theorem extract_text_failure_modes_witness :
    extract_text ⟨("a.txt").toList, .ok [' '], true, .ok [], .ok [], .ok [],
      .ok (), .ok [], .ok [], .ok []⟩ = .ok [' '] := by
  rw [(extract_text_failure_modes _).2.1 (Or.inl (by decide))]

/-- One entry of `om_sections.json` as consumed by `generate_om`. -/
structure OmSection where
  key : String
  name : String
  query : String
  instruction : String

/-- `routes/om.py::_collect_full_documents`: whole-document text for every
document with non-empty extracted text of at most 5000 characters. -/
def collect_full_documents (documents : List Doc) : List (List Char) :=
  documents.filterMap (fun d =>
    match d.extracted_text with
    | none => none
    | some t =>
      if t ≠ [] ∧ t.length ≤ 5000 then
        some (("[[").toList ++ d.file_name ++ ("]]").toList ++ '\n' :: pyStrip t)
      else none)

/-- The evidence previews handed to the generation call for one section:
the retrieval snippets (`_retrieve_section_snippets`, abstracted as an
oracle over the section) extended — when "attach full documents" is
requested — with the whole-document texts. -/
def sectionPreviews (previewsFor : OmSection → List (List Char)) (attach : Bool)
    (docs : List Doc) (s : OmSection) : List (List Char) :=
  previewsFor s ++ (if attach then collect_full_documents docs else [])

/-- The per-section loop of `generate_om`: sections in order, one
`GEMINI.generate_section` call each (`error` = a `GeminiError`), stopping
at the first failure; on success the texts are collected keyed by section. -/
def run_sections (gen : OmSection → List (List Char) → Except String String)
    (previews : OmSection → List (List Char)) :
    List OmSection → Except String (List (String × String))
  | [] => .ok []
  | s :: rest =>
    match gen s (previews s) with
    | .error e => .error e
    | .ok text =>
      match run_sections gen previews rest with
      | .error e => .error e
      | .ok tail => .ok ((s.key, text) :: tail)

/-- `outputs_dir / f"offering_memorandum_{deal.id}.md"`. -/
def om_output_path (dealId : Nat) : String :=
  "offering_memorandum_" ++ toString dealId ++ ".md"

/-- `routes/om.py::generate_om`: guard on available documents, the section
loop, then the template render and the single file write. The result pairs
the file system (association of written paths to contents) with either a
propagated HTTP error — 502 wrapping the GeminiError detail — or the
rendered markdown; nothing is written unless every section succeeded. -/
def generate_om (sections : List OmSection) (documents : List Doc)
    (previewsFor : OmSection → List (List Char))
    (gen : OmSection → List (List Char) → Except String String)
    (render : List (String × String) → List Char)
    (attach_full_documents : Bool) (dealId : Nat)
    (fs : List (String × List Char)) :
    List (String × List Char) × Except (Nat × String) (List Char) :=
  let docs := documents.filter (fun d => decide (d.processing_status ≠ "failed"))
  if docs = [] then (fs, .error (400, "No processed documents available for this deal"))
  else
    match run_sections gen (sectionPreviews previewsFor attach_full_documents docs) sections with
    | .error e => (fs, .error (502, e))
    | .ok texts => (fs ++ [(om_output_path dealId, render texts)], .ok (render texts))

/-- The loop aborts at the first failing section with that section's
error, no matter how many sections follow. -/
theorem run_sections_first_error (gen : OmSection → List (List Char) → Except String String)
    (previews : OmSection → List (List Char)) :
    ∀ (pre : List OmSection) (s : OmSection) (post : List OmSection) (e : String),
      (∀ p ∈ pre, ∃ t, gen p (previews p) = .ok t) →
      gen s (previews s) = .error e →
      run_sections gen previews (pre ++ s :: post) = .error e := by
  intro pre
  induction pre with
  | nil =>
    intro s post e _ hfail
    simp only [List.nil_append, run_sections]
    rw [hfail]
  | cons p rest ih =>
    intro s post e hpre hfail
    obtain ⟨t, ht⟩ := hpre p (List.mem_cons_self p rest)
    simp only [List.cons_append, run_sections]
    rw [ht]
    simp only [List.append_eq]
    rw [ih s post e (fun q hq => hpre q (List.mem_cons_of_mem p hq)) hfail]

/-- C2. If any one section's generation call raises a provider error (all
sections before it having succeeded), the whole run fails with that error
propagated as a 502: the file system is returned unchanged — no rendered
document is written, so no `rendered_doc` artifact exists — and the
already generated texts of the earlier sections appear nowhere in the
result (they are discarded, not persisted standalone). -/
theorem generate_om_section_failure_aborts
    (pre : List OmSection) (s : OmSection) (post : List OmSection)
    (documents : List Doc) (previewsFor : OmSection → List (List Char))
    (gen : OmSection → List (List Char) → Except String String)
    (render : List (String × String) → List Char)
    (attach : Bool) (dealId : Nat) (fs : List (String × List Char)) (e : String)
    (hdocs : documents.filter (fun d => decide (d.processing_status ≠ "failed")) ≠ [])
    (hpre : ∀ p ∈ pre, ∃ t, gen p (sectionPreviews previewsFor attach
      (documents.filter (fun d => decide (d.processing_status ≠ "failed"))) p) = .ok t)
    (hfail : gen s (sectionPreviews previewsFor attach
      (documents.filter (fun d => decide (d.processing_status ≠ "failed"))) s) = .error e) :
    generate_om (pre ++ s :: post) documents previewsFor gen render attach dealId fs =
      (fs, .error (502, e)) := by
  unfold generate_om
  rw [if_neg hdocs]
  rw [run_sections_first_error gen _ pre s post e hpre hfail]

/-- Witness for C2: three sections where section 2's generation call fails
leave the file system empty and propagate the error as a 502. -/
theorem generate_om_section_failure_aborts_witness :
    generate_om
        [⟨"k1", "A", "q", "i"⟩, ⟨"k2", "B", "q", "i"⟩, ⟨"k3", "C", "q", "i"⟩]
        [⟨['d'], some ['p'], none, "completed", none, some ['h'], true, true, 1⟩]
        (fun _ => [])
        (fun sec _ => if sec.key = "k2" then .error "boom" else .ok "txt")
        (fun _ => []) false 1 [] = ([], .error (502, "boom")) :=
  generate_om_section_failure_aborts
    [⟨"k1", "A", "q", "i"⟩] ⟨"k2", "B", "q", "i"⟩ [⟨"k3", "C", "q", "i"⟩]
    [⟨['d'], some ['p'], none, "completed", none, some ['h'], true, true, 1⟩]
    (fun _ => []) (fun sec _ => if sec.key = "k2" then .error "boom" else .ok "txt")
    (fun _ => []) false 1 [] "boom"
    (by decide)
    (by
      intro p hp
      rw [List.mem_singleton] at hp
      subst hp
      exact ⟨"txt", rfl⟩)
    rfl
